import Mathlib

/-!
Verification development for the leap_net proxy subsystem
(`src/leap_net/proxy/ProxyLeapNet.py` and `src/leap_net/proxy/AgentWithProxy.py`).

The Python code is shallowly embedded: pure computations become Lean
functions over `ℚ` (standing for the exact-arithmetic content of the
floating-point code), stateful methods become explicit state-passing
functions, and fallible code returns `Except`/`Option`.  Methods of the
base class `BaseNNProxy`, whose source is not part of this repository
snapshot, are modelled from the specification and marked as such in
their doc comments.
-/

namespace LeapNet

/-- The set of Y attributes that are stored per powerline
(`ProxyLeapNet._line_attr`, ProxyLeapNet.py line 101). -/
def line_attr : List String :=
  ["a_or", "a_ex", "p_or", "p_ex", "q_or", "q_ex", "v_or", "v_ex"]

/-- Outcome of the constructor's search for the `"line_status"` attribute
(`ProxyLeapNet.__init__`, lines 103-114): the located index `_idx`, the
recorded location `_where_id`, and whether the "strongly recommend" warning
was emitted. -/
structure MaskLoc where
  idx : Option Nat
  where_id : Option String
  warned : Bool
  deriving Repr, DecidableEq

/-- Embedding of ProxyLeapNet.py lines 106-114: `attr_tau.index("line_status")`
is tried first; on `ValueError` the search falls back to `attr_x`; if both
fail a warning is issued and both `_idx` and `_where_id` stay `None`. -/
def locate_line_status (attr_tau attr_x : List String) : MaskLoc :=
  match attr_tau.findIdx? (fun a => a = "line_status") with
  | some i => { idx := some i, where_id := some "tau", warned := false }
  | none =>
    match attr_x.findIdx? (fun a => a = "line_status") with
    | some i => { idx := some i, where_id := some "x", warned := false }
    | none => { idx := none, where_id := none, warned := true }

/-- Embedding of `ProxyLeapNet.build_model` lines 127-137: when `_idx` is set,
the mask tensor is taken from the input at that index (from `inputs_x` when
`_where_id == "x"`, from `inputs_tau` when `_where_id == "tau"`, raising
`RuntimeError` otherwise) and then replaced by `1.0 -` itself; when `_idx`
is `None` no mask tensor is built. -/
def compute_tensor_line_status (loc : MaskLoc) (inputs_x inputs_tau : List (List ℚ)) :
    Except String (Option (List ℚ)) :=
  match loc.idx with
  | none => Except.ok none
  | some i =>
    if loc.where_id = some "x" then
      Except.ok (some ((inputs_x.getD i []).map (fun v => 1 - v)))
    else if loc.where_id = some "tau" then
      Except.ok (some ((inputs_tau.getD i []).map (fun v => 1 - v)))
    else
      Except.error "Unknown where_id"

/-- Embedding of `ProxyLeapNet.build_model` lines 204-213: the final decoder
output for attribute `nm` is the raw dense-layer output `raw`, multiplied
elementwise by the mask tensor when the mask exists and `nm` is one of the
line-indexed attributes. -/
def output_for_attr (tls : Option (List ℚ)) (nm : String) (raw : List ℚ) : List ℚ :=
  match tls with
  | some mask => if nm ∈ line_attr then List.zipWith (fun p s => p * s) raw mask else raw
  | none => raw

/-- Normalization applied per attribute in `ProxyLeapNet._extract_data`
(line 423-425): `(v - m) / sd`. -/
def normalize_val (v m sd : ℚ) : ℚ := (v - m) / sd

/-- De-normalization applied per attribute in `ProxyLeapNet._post_process`
(line 452): `out * sd + m`. -/
def denormalize_val (o m sd : ℚ) : ℚ := o * sd + m

/-- Elementwise de-normalization of one predicted attribute, as performed by
`_post_process` on the raw (already masked, inside the model) output. -/
def post_process_attr (arr : List ℚ) (m sd : ℚ) : List ℚ :=
  arr.map (fun v => denormalize_val v m sd)

/-- The prediction exposed for one Y attribute: the masked raw decoder output,
de-normalized afterwards by `_post_process` (mask before de-normalization). -/
def exposed_prediction (tls : Option (List ℚ)) (nm : String) (raw : List ℚ) (m sd : ℚ) :
    List ℚ :=
  post_process_attr (output_for_attr tls nm raw) m sd

/-- Helper: applying the `1 - v` map at a component holding `1` yields `0`. -/
theorem mask_map_at_one (ls : List ℚ) (i : Nat) (h : ls[i]? = some 1) :
    (ls.map (fun v => 1 - v))[i]? = some 0 := by
  simp only [List.getElem?_map, h, Option.map_some']
  norm_num

/-- Helper: the elementwise product with a mask holding `0` at component `i`
is `0` there, for every left operand long enough. -/
theorem zipWith_mul_zero (raw mask : List ℚ) (i : Nat)
    (hm : mask[i]? = some 0) (hi : i < raw.length) :
    (List.zipWith (fun p s => p * s) raw mask)[i]? = some 0 := by
  rw [List.getElem?_zipWith_eq_some]
  exact ⟨raw[i], 0, List.getElem?_eq_getElem hi, hm, mul_zero _⟩

/-- C1: whenever the constructor located a `"line_status"` input and
`build_model` therefore built the mask tensor `1 - line_status`, every
line-indexed Y attribute's exposed raw decoder output is the elementwise
product with that mask, so each component whose `line_status` input value is
`1` (disconnected) is `0`, regardless of the raw decoder output (hence of the
trunk encoding); the mask acts on the raw output, before `_post_process`
de-normalizes it. -/
theorem masked_decoder_output_zero
    (attr_tau attr_x : List String) (inputs_x inputs_tau : List (List ℚ))
    (mask raw : List ℚ) (nm : String) (i : Nat)
    (hmask : compute_tensor_line_status (locate_line_status attr_tau attr_x) inputs_x inputs_tau
      = Except.ok (some mask))
    (hdisc :
      ((locate_line_status attr_tau attr_x).where_id = some "tau" ∧
        (inputs_tau.getD ((locate_line_status attr_tau attr_x).idx.getD 0) [])[i]? = some 1) ∨
      ((locate_line_status attr_tau attr_x).where_id = some "x" ∧
        (inputs_x.getD ((locate_line_status attr_tau attr_x).idx.getD 0) [])[i]? = some 1))
    (hnm : nm ∈ line_attr) (hi : i < raw.length) :
    (output_for_attr (some mask) nm raw)[i]? = some 0 := by
  generalize hL : locate_line_status attr_tau attr_x = loc at hmask hdisc
  have hout : output_for_attr (some mask) nm raw
      = List.zipWith (fun p s => p * s) raw mask := by
    simp [output_for_attr, hnm]
  rw [hout]
  rcases hidx : loc.idx with _ | j
  · simp [compute_tensor_line_status, hidx] at hmask
  · by_cases hwx : loc.where_id = some "x"
    · have hmask' : mask = (inputs_x.getD j []).map (fun v => 1 - v) := by
        simp [compute_tensor_line_status, hidx, hwx] at hmask
        rw [List.getD_eq_getElem?_getD]
        exact hmask.symm
      rcases hdisc with ⟨hw, _⟩ | ⟨_, hone⟩
      · rw [hwx] at hw; simp at hw
      · rw [hidx] at hone
        exact zipWith_mul_zero raw mask i
          (hmask' ▸ mask_map_at_one (inputs_x.getD j []) i hone) hi
    · by_cases hwt : loc.where_id = some "tau"
      · have hmask' : mask = (inputs_tau.getD j []).map (fun v => 1 - v) := by
          simp [compute_tensor_line_status, hidx, hwx, hwt] at hmask
          rw [List.getD_eq_getElem?_getD]
          exact hmask.symm
        rcases hdisc with ⟨_, hone⟩ | ⟨hw, _⟩
        · rw [hidx] at hone
          exact zipWith_mul_zero raw mask i
            (hmask' ▸ mask_map_at_one (inputs_tau.getD j []) i hone) hi
        · exact absurd hw hwx
      · simp [compute_tensor_line_status, hidx, hwx, hwt] at hmask

/-- C1 witness: a concrete instantiation of `masked_decoder_output_zero`
with `line_status` found in the tau attributes and line 1 disconnected. -/
theorem masked_decoder_output_zero_witness :
    (output_for_attr (some [1 - 0, 1 - 1]) "a_or" [5, 7])[1]? = some 0 := by
  have h := masked_decoder_output_zero ["line_status"] ["prod_p"]
    [[3, 4]] [[0, 1]] [1 - 0, 1 - 1] [5, 7] "a_or" 1
    (by rfl)
    (Or.inl (by constructor <;> rfl))
    (by simp [line_attr])
    (by norm_num)
  exact h

/-- C3: the constructor searches the Tau attribute list first for
`"line_status"`; only when absent there does it search the X list; when
absent from both it records no index, no location, emits the warning, and
the mask step of `build_model` builds no mask tensor. -/
theorem constructor_mask_search (attr_tau attr_x : List String) :
    ("line_status" ∈ attr_tau →
      ∃ i, attr_tau.findIdx? (fun a => a = "line_status") = some i ∧
        locate_line_status attr_tau attr_x
          = { idx := some i, where_id := some "tau", warned := false }) ∧
    ("line_status" ∉ attr_tau → "line_status" ∈ attr_x →
      ∃ i, attr_x.findIdx? (fun a => a = "line_status") = some i ∧
        locate_line_status attr_tau attr_x
          = { idx := some i, where_id := some "x", warned := false }) ∧
    ("line_status" ∉ attr_tau → "line_status" ∉ attr_x →
      locate_line_status attr_tau attr_x
        = { idx := none, where_id := none, warned := true } ∧
      ∀ ix it, compute_tensor_line_status (locate_line_status attr_tau attr_x) ix it
        = Except.ok none) := by
  have hnone : ∀ l : List String, "line_status" ∉ l →
      l.findIdx? (fun a => a = "line_status") = none := by
    intro l hl
    rw [List.findIdx?_eq_none_iff]
    intro x hx
    simp only [decide_eq_false_iff_not]
    intro hcontra
    exact hl (hcontra ▸ hx)
  refine ⟨?_, ?_, ?_⟩
  · intro hmem
    have hsome : (attr_tau.findIdx? (fun a => a = "line_status")).isSome := by
      rw [List.findIdx?_isSome]
      exact List.any_eq_true.mpr ⟨"line_status", hmem, by simp⟩
    obtain ⟨i, hi⟩ := Option.isSome_iff_exists.mp hsome
    exact ⟨i, hi, by simp [locate_line_status, hi]⟩
  · intro htau hmem
    have hsome : (attr_x.findIdx? (fun a => a = "line_status")).isSome := by
      rw [List.findIdx?_isSome]
      exact List.any_eq_true.mpr ⟨"line_status", hmem, by simp⟩
    obtain ⟨i, hi⟩ := Option.isSome_iff_exists.mp hsome
    exact ⟨i, hi, by simp [locate_line_status, hnone attr_tau htau, hi]⟩
  · intro htau hx
    have hloc : locate_line_status attr_tau attr_x
        = { idx := none, where_id := none, warned := true } := by
      simp [locate_line_status, hnone attr_tau htau, hnone attr_x hx]
    exact ⟨hloc, fun ix it => by simp [hloc, compute_tensor_line_status]⟩

/-- C3 witness: a concrete instantiation with `"line_status"` present in the
Tau list at index 1 (and also present in X, showing Tau is searched first). -/
theorem constructor_mask_search_witness :
    locate_line_status ["topo_vect", "line_status"] ["line_status"]
      = { idx := some 1, where_id := some "tau", warned := false } := by
  obtain ⟨i, hi, hloc⟩ :=
    (constructor_mask_search ["topo_vect", "line_status"] ["line_status"]).1 (by simp)
  have : i = 1 := by
    have : List.findIdx? (fun a => a = "line_status") ["topo_vect", "line_status"]
        = some 1 := by rfl
    rw [this] at hi
    exact (Option.some_inj.mp hi).symm
  rw [this] at hloc
  exact hloc

/-- C2 counterexample: with `"line_status"` in neither attribute list, the
constructor merely records the warning and `build_model`'s mask step succeeds
with no mask (`Except.ok none`) — it does not fail with an internal
consistency error as the claim states. -/
theorem no_line_status_build_succeeds :
    locate_line_status ["topo_vect"] ["prod_p", "load_p"]
      = { idx := none, where_id := none, warned := true } ∧
    compute_tensor_line_status
        (locate_line_status ["topo_vect"] ["prod_p", "load_p"]) [] []
      = Except.ok none ∧
    ∀ e, compute_tensor_line_status
        (locate_line_status ["topo_vect"] ["prod_p", "load_p"]) [] []
      ≠ Except.error e := by
  refine ⟨by rfl, by rfl, fun e h => ?_⟩
  simp [locate_line_status, compute_tensor_line_status] at h

/-- C2 amended: when `"line_status"` is in neither list the constructor warns
and continues with masking disabled (the mask step succeeds and builds no
mask); the internal consistency error (`RuntimeError("Unknown where_id")`)
arises in `build_model` only when an index was located but the recorded
location is neither `"x"` nor `"tau"` — a state the constructor never
produces. -/
theorem mask_absent_warns_and_error_only_when_tag_unknown
    (attr_tau attr_x : List String)
    (htau : "line_status" ∉ attr_tau) (hx : "line_status" ∉ attr_x) :
    ((locate_line_status attr_tau attr_x).warned = true ∧
      (locate_line_status attr_tau attr_x).idx = none ∧
      (∀ ix it, compute_tensor_line_status (locate_line_status attr_tau attr_x) ix it
        = Except.ok none)) ∧
    (∀ loc : MaskLoc, ∀ j, loc.idx = some j →
      loc.where_id ≠ some "x" → loc.where_id ≠ some "tau" →
      ∀ ix it, compute_tensor_line_status loc ix it
        = Except.error "Unknown where_id") := by
  obtain ⟨hloc, hok⟩ := (constructor_mask_search attr_tau attr_x).2.2 htau hx
  refine ⟨⟨by simp [hloc], by simp [hloc], hok⟩, ?_⟩
  intro loc j hj hwx hwt ix it
  simp [compute_tensor_line_status, hj, hwx, hwt]

/-- C2 amended-claim witness at a concrete configuration. -/
theorem mask_absent_witness :
    (locate_line_status ["topo_vect"] ["prod_p"]).warned = true ∧
    compute_tensor_line_status (locate_line_status ["topo_vect"] ["prod_p"]) [[1]] [[2]]
      = Except.ok none ∧
    compute_tensor_line_status
        { idx := some 0, where_id := some "oops", warned := false } [[1]] [[2]]
      = Except.error "Unknown where_id" := by
  have h := mask_absent_warns_and_error_only_when_tag_unknown
    ["topo_vect"] ["prod_p"] (by simp) (by simp)
  exact ⟨h.1.1, h.1.2.2 [[1]] [[2]],
    h.2 { idx := some 0, where_id := some "oops", warned := false } 0 rfl
      (by simp) (by simp) [[1]] [[2]]⟩

/-- C5: the de-normalization `out * sd + m` of `_post_process` exactly
inverts the normalization `(v - m) / sd` of `_extract_data` whenever the
frozen standard deviation is nonzero. -/
theorem denormalize_inverts_normalize (v m sd : ℚ) (h : sd ≠ 0) :
    denormalize_val (normalize_val v m sd) m sd = v := by
  simp only [denormalize_val, normalize_val]
  field_simp

/-- C5 witness at a concrete value, mean and standard deviation. -/
theorem denormalize_inverts_normalize_witness :
    denormalize_val (normalize_val 7 3 2) 3 2 = 7 :=
  denormalize_inverts_normalize 7 3 2 (by norm_num)

/-- Symbolic reference to the model input from which the mask tensor is
taken in the built graph. -/
inductive TensorRef where
  | x : Nat → TensorRef
  | tau : Nat → TensorRef
  deriving Repr, DecidableEq

/-- Graph-level view of `build_model` lines 127-137: which input placeholder
the mask tensor refers to (`none` when `_idx` is `None`), with the
`RuntimeError` branch for an unrecognized `_where_id`. -/
def tls_ref (loc : MaskLoc) : Except String (Option TensorRef) :=
  match loc.idx with
  | none => Except.ok none
  | some i =>
    if loc.where_id = some "x" then Except.ok (some (TensorRef.x i))
    else if loc.where_id = some "tau" then Except.ok (some (TensorRef.tau i))
    else Except.error "Unknown where_id"

/-- One output head of the built graph: the layer name `nm + "_hat"`
(line 205) and whether the `_force_disco` dense-then-multiply variant was
chosen (lines 207-211). -/
structure OutputSpec where
  name : String
  force_disco : Bool
  deriving Repr, DecidableEq

/-- The structure of the graph built by `build_model`: named inputs
(lines 122-125), the mask reference, the output heads, and the per-output
mse loss map (line 214). -/
structure ModelGraph where
  inputs_x : List String
  inputs_tau : List String
  mask : Option TensorRef
  outputs : List OutputSpec
  losses : List (String × String)
  deriving Repr, DecidableEq

/-- The instance state read and written by `build_model`. -/
structure BuildState where
  attr_x : List String
  attr_tau : List String
  attr_y : List String
  loc : MaskLoc
  _model : Option ModelGraph
  tensor_line_status : Option TensorRef
  compiled : Bool
  deriving Repr, DecidableEq

/-- The output heads built in the loop of lines 186-215: the `_force_disco`
variant is chosen exactly when the mask tensor exists and the attribute is
line-indexed. -/
def mk_output_specs (attr_y : List String) (tls : Option TensorRef) : List OutputSpec :=
  attr_y.map (fun nm =>
    { name := nm ++ "_hat", force_disco := tls.isSome && decide (nm ∈ line_attr) })

/-- Embedding of `ProxyLeapNet.build_model` (lines 116-223) at graph level:
an early return when `self._model is not None` (lines 118-120), otherwise
the mask tensor, the output heads and the compiled model are built. -/
def build_model (st : BuildState) : Except String BuildState :=
  if st._model.isSome then Except.ok st
  else
    match tls_ref st.loc with
    | Except.error e => Except.error e
    | Except.ok tls =>
      let g : ModelGraph :=
        { inputs_x := st.attr_x.map (fun nm => "x_" ++ nm),
          inputs_tau := st.attr_tau.map (fun nm => "tau_" ++ nm),
          mask := tls,
          outputs := mk_output_specs st.attr_y tls,
          losses := (mk_output_specs st.attr_y tls).map (fun o => (o.name, "mse")) }
      Except.ok { st with
        _model := some g,
        tensor_line_status := if tls.isSome then tls else st.tensor_line_status,
        compiled := true }

/-- C4: once `build_model` has constructed the model, calling it again is a
no-op: it succeeds and returns the state unchanged, and when the model
already existed beforehand the first call itself changed nothing. -/
theorem build_model_idempotent (st st' : BuildState)
    (h : build_model st = Except.ok st') :
    build_model st' = Except.ok st' ∧ (st._model.isSome → st' = st) := by
  by_cases hm : st._model.isSome
  · have hst : st' = st := by
      unfold build_model at h
      rw [if_pos hm] at h
      exact (Except.ok.injEq _ _ |>.mp h).symm
    subst hst
    refine ⟨?_, fun _ => rfl⟩
    unfold build_model
    rw [if_pos hm]
  · refine ⟨?_, fun hc => absurd hc hm⟩
    unfold build_model at h
    rw [if_neg hm] at h
    cases htls : tls_ref st.loc with
    | error e => rw [htls] at h; exact absurd h (by simp)
    | ok tls =>
      rw [htls] at h
      have hst : st' = { st with
          _model := some
            { inputs_x := st.attr_x.map (fun nm => "x_" ++ nm),
              inputs_tau := st.attr_tau.map (fun nm => "tau_" ++ nm),
              mask := tls,
              outputs := mk_output_specs st.attr_y tls,
              losses := (mk_output_specs st.attr_y tls).map (fun o => (o.name, "mse")) },
          tensor_line_status := if tls.isSome then tls else st.tensor_line_status,
          compiled := true } := by
        exact (Except.ok.injEq _ _ |>.mp h).symm
      have hsome : st'._model.isSome := by rw [hst]; rfl
      unfold build_model
      rw [if_pos hsome]

/-- A concrete pre-build state used for the C4 witness. -/
def example_fresh_state : BuildState :=
  { attr_x := ["prod_p"], attr_tau := ["line_status"], attr_y := ["a_or"],
    loc := locate_line_status ["line_status"] ["prod_p"],
    _model := none, tensor_line_status := none, compiled := false }

/-- The state produced by one successful `build_model` on
`example_fresh_state`. -/
def example_built_state : BuildState :=
  { attr_x := ["prod_p"], attr_tau := ["line_status"], attr_y := ["a_or"],
    loc := locate_line_status ["line_status"] ["prod_p"],
    _model := some
      { inputs_x := ["x_prod_p"], inputs_tau := ["tau_line_status"],
        mask := some (TensorRef.tau 0),
        outputs := [{ name := "a_or_hat", force_disco := true }],
        losses := [("a_or_hat", "mse")] },
    tensor_line_status := some (TensorRef.tau 0), compiled := true }

/-- C4 witness: a concrete successful build, after which a second call to
`build_model` changes nothing. -/
theorem build_model_idempotent_witness :
    build_model example_built_state = Except.ok example_built_state ∧
    (example_fresh_state._model.isSome → example_built_state = example_fresh_state) :=
  build_model_idempotent example_fresh_state example_built_state (by rfl)

/-- An observation, seen through `_extract_obs`: a map from attribute name
to the flattened numeric vector of that attribute in the observation. -/
def Obs : Type := String → List ℚ

/-- The instance state read and written by `ProxyLeapNet.init`. -/
structure InitState where
  attr_x : List String
  attr_tau : List String
  attr_y : List String
  _metadata_loaded : Bool
  _sz_x : Option (List Nat)
  _sz_tau : Option (List Nat)
  _sz_y : Option (List Nat)
  _m_x : Option (List (List ℚ))
  _sd_x : Option (List (List ℚ))
  _m_y : Option (List (List ℚ))
  _sd_y : Option (List (List ℚ))
  _m_tau : Option (List (List ℚ))
  _sd_tau : Option (List (List ℚ))

/-- Modelled from the spec: `BaseNNProxy.init` (its source is not part of
this snapshot) fixes the X and Y attribute widths from the first observation
and allocates the training databases when metadata was not preloaded (§3
lifecycle); it touches neither the mean/std statistics, which the source
keeps in `ProxyLeapNet` (cf. the TODO comments at ProxyLeapNet.py lines
80-85), nor `_metadata_loaded`, which `ProxyLeapNet.init` line 290 sets
afterwards (the gate at line 268 would otherwise never fire). -/
def base_init (st : InitState) (obss : List Obs) : InitState :=
  if st._metadata_loaded then st
  else { st with
    _sz_x := some (st.attr_x.map (fun a => ((obss.headD (fun _ => [])) a).length)),
    _sz_y := some (st.attr_y.map (fun a => ((obss.headD (fun _ => [])) a).length)) }

/-- Embedding of `ProxyLeapNet.init` (lines 241-290), parameterized by the
base-class statistics functions `_get_mean` / `_get_sd` (their source is not
in this snapshot): when metadata was not preloaded it measures the tau widths
(lines 254-260), calls the base init (line 263), computes the per-attribute
means and standard deviations for X, Y and tau from the bootstrap
observations (lines 268-288), and finally sets `_metadata_loaded`
(line 290). -/
def ProxyLeapNet_init (get_mean get_sd : List Obs → String → List ℚ)
    (st : InitState) (obss : List Obs) : InitState :=
  let st1 := if st._metadata_loaded then st
    else { st with
      _sz_tau := some (st.attr_tau.map (fun a => ((obss.headD (fun _ => [])) a).length)) }
  let st2 := base_init st1 obss
  let st3 := if st2._metadata_loaded then st2
    else { st2 with
      _m_x := some (st2.attr_x.map (get_mean obss)),
      _sd_x := some (st2.attr_x.map (get_sd obss)),
      _m_y := some (st2.attr_y.map (get_mean obss)),
      _sd_y := some (st2.attr_y.map (get_sd obss)),
      _m_tau := some (st2.attr_tau.map (get_mean obss)),
      _sd_tau := some (st2.attr_tau.map (get_sd obss)) }
  { st3 with _metadata_loaded := true }

/-- The six frozen statistics lists of a proxy instance. -/
def stats_of (st : InitState) :
    Option (List (List ℚ)) × Option (List (List ℚ)) × Option (List (List ℚ)) ×
    Option (List (List ℚ)) × Option (List (List ℚ)) × Option (List (List ℚ)) :=
  (st._m_x, st._sd_x, st._m_y, st._sd_y, st._m_tau, st._sd_tau)

/-- C6: statistics are computed at most once. After any `init` the metadata
is marked loaded; a first `init` on an instance without preloaded metadata
computes the means from the bootstrap batch; an `init` on an instance whose
metadata is already loaded leaves all six statistics lists unchanged; hence
a second `init` never changes the statistics frozen by the first. -/
theorem init_freezes_statistics (gm gs : List Obs → String → List ℚ)
    (st : InitState) (o1 o2 : List Obs) :
    (ProxyLeapNet_init gm gs st o1)._metadata_loaded = true ∧
    (st._metadata_loaded = false →
      (ProxyLeapNet_init gm gs st o1)._m_x = some (st.attr_x.map (gm o1))) ∧
    (st._metadata_loaded = true →
      stats_of (ProxyLeapNet_init gm gs st o1) = stats_of st) ∧
    stats_of (ProxyLeapNet_init gm gs (ProxyLeapNet_init gm gs st o1) o2)
      = stats_of (ProxyLeapNet_init gm gs st o1) := by
  by_cases hl : st._metadata_loaded
  · refine ⟨?_, ?_, ?_, ?_⟩ <;>
      simp [ProxyLeapNet_init, base_init, stats_of, hl]
  · have hl' : st._metadata_loaded = false := by simpa using hl
    refine ⟨?_, ?_, ?_, ?_⟩ <;>
      simp [ProxyLeapNet_init, base_init, stats_of, hl']

/-- A concrete not-yet-initialized proxy state for the C6 witness. -/
def example_init_state : InitState :=
  { attr_x := ["prod_p"], attr_tau := ["line_status"], attr_y := ["a_or"],
    _metadata_loaded := false,
    _sz_x := none, _sz_tau := none, _sz_y := none,
    _m_x := none, _sd_x := none, _m_y := none, _sd_y := none,
    _m_tau := none, _sd_tau := none }

/-- A concrete mean function for the C6 witness. -/
def example_get_mean : List Obs → String → List ℚ := fun _ _ => [0]

/-- A concrete standard-deviation function for the C6 witness. -/
def example_get_sd : List Obs → String → List ℚ := fun _ _ => [1]

/-- An empty bootstrap batch for the C6 witness. -/
def example_obss : List Obs := []

/-- C6 witness: on a concrete fresh instance the first `init` computes the
means, marks the metadata loaded, and a second `init` leaves the statistics
unchanged. -/
theorem init_freezes_statistics_witness :
    (ProxyLeapNet_init example_get_mean example_get_sd example_init_state
        example_obss)._metadata_loaded = true ∧
    (ProxyLeapNet_init example_get_mean example_get_sd example_init_state
        example_obss)._m_x
      = some (example_init_state.attr_x.map (example_get_mean example_obss)) ∧
    stats_of (ProxyLeapNet_init example_get_mean example_get_sd
        (ProxyLeapNet_init example_get_mean example_get_sd example_init_state
          example_obss) example_obss)
      = stats_of (ProxyLeapNet_init example_get_mean example_get_sd
        example_init_state example_obss) := by
  have h := init_freezes_statistics example_get_mean example_get_sd
    example_init_state example_obss example_obss
  exact ⟨h.1, h.2.1 rfl, h.2.2.2⟩

/-- The three parallel training databases and the shared row cursor
`last_id`. One database maps an attribute name and a row index to the
vector stored there (`none` when the row was never written). -/
structure DBState where
  last_id : Nat
  db_x : String → Nat → Option (List ℚ)
  db_tau : String → Nat → Option (List ℚ)
  db_y : String → Nat → Option (List ℚ)

/-- Writing one observation's attributes of one group into the row `row` of
that group's database (the loop `inp[self.last_id, :] = ...`). -/
def write_row (db : String → Nat → Option (List ℚ)) (attrs : List String)
    (obs : Obs) (row : Nat) : String → Nat → Option (List ℚ) :=
  fun a i => if a ∈ attrs ∧ i = row then some (obs a) else db a i

/-- Modelled from the spec: `BaseNNProxy.store_obs` (its source is not part
of this snapshot) extracts the X and Y attributes of the observation into
the row at the current cursor and then advances the cursor circularly
(§4.2 `store`). -/
def base_store_obs (cap : Nat) (attr_x attr_y : List String) (obs : Obs)
    (st : DBState) : DBState :=
  { st with
    db_x := write_row st.db_x attr_x obs st.last_id,
    db_y := write_row st.db_y attr_y obs st.last_id,
    last_id := (st.last_id + 1) % cap }

/-- Embedding of `ProxyLeapNet.store_obs` (lines 225-239): the tau
attributes are written at the current `last_id` first, then
`super().store_obs(obs)` stores X and Y and advances the cursor. -/
def store_obs (cap : Nat) (attr_x attr_tau attr_y : List String) (obs : Obs)
    (st : DBState) : DBState :=
  base_store_obs cap attr_x attr_y obs
    { st with db_tau := write_row st.db_tau attr_tau obs st.last_id }

/-- C10: `store_obs` writes the tau values at the cursor row before the base
class advances it, so the X, tau and Y rows of one observation share the
same row index `st.last_id`, and the cursor advances exactly once. -/
theorem store_obs_rows_aligned (cap : Nat) (attr_x attr_tau attr_y : List String)
    (obs : Obs) (st : DBState) :
    (∀ a, a ∈ attr_tau →
      (store_obs cap attr_x attr_tau attr_y obs st).db_tau a st.last_id = some (obs a)) ∧
    (∀ a, a ∈ attr_x →
      (store_obs cap attr_x attr_tau attr_y obs st).db_x a st.last_id = some (obs a)) ∧
    (∀ a, a ∈ attr_y →
      (store_obs cap attr_x attr_tau attr_y obs st).db_y a st.last_id = some (obs a)) ∧
    (store_obs cap attr_x attr_tau attr_y obs st).last_id = (st.last_id + 1) % cap := by
  refine ⟨fun a ha => ?_, fun a ha => ?_, fun a ha => ?_, rfl⟩ <;>
    simp [store_obs, base_store_obs, write_row, ha]

/-- C10 witness: one concrete store writes all three groups at row 0 and
moves the cursor to 1. -/
theorem store_obs_rows_aligned_witness :
    (store_obs 5 ["prod_p"] ["line_status"] ["a_or"] (fun _ => [3])
      { last_id := 0, db_x := fun _ _ => none, db_tau := fun _ _ => none,
        db_y := fun _ _ => none }).db_tau "line_status" 0 = some [3] ∧
    (store_obs 5 ["prod_p"] ["line_status"] ["a_or"] (fun _ => [3])
      { last_id := 0, db_x := fun _ _ => none, db_tau := fun _ _ => none,
        db_y := fun _ _ => none }).last_id = 1 % 5 := by
  have h := store_obs_rows_aligned 5 ["prod_p"] ["line_status"] ["a_or"] (fun _ => [3])
    { last_id := 0, db_x := fun _ _ => none, db_tau := fun _ _ => none,
      db_y := fun _ _ => none }
  exact ⟨h.1 "line_status" (by simp), h.2.2.2⟩

/-- The three proxy calls `AgentWithProxy.load` makes on the happy path
(AgentWithProxy.py lines 260-262). -/
inductive LoadStep where
  | load_metadata : LoadStep
  | build_model : LoadStep
  | load_weights : LoadStep
  deriving Repr, DecidableEq

/-- Embedding of `AgentWithProxy._get_path_nn` (lines 268-273). -/
def get_path_nn (path : String) (name : Option String) : String :=
  match name with
  | none => path
  | some nm => path ++ "/" ++ nm

/-- Embedding of `AgentWithProxy.load` (lines 251-262), returning the trace
of proxy calls it performs: with a `None` path nothing happens; otherwise
the target path is resolved (through `_get_path_nn` when training), a
`RuntimeError` is raised when it does not exist, and otherwise the metadata
is loaded, then the model is built, then the weights are loaded. -/
def agent_load (is_training : Bool) (name : String) (path : Option String)
    (path_exists : String → Bool) : Except String (List LoadStep) :=
  match path with
  | none => Except.ok []
  | some p =>
    let path_model := if is_training then get_path_nn p (some name) else p
    if path_exists path_model then
      Except.ok [LoadStep.load_metadata, LoadStep.build_model, LoadStep.load_weights]
    else
      Except.error ("You asked to load a model at " ++ path_model
        ++ " but there is nothing there.")

/-- C7: for every non-`None` path, `load` fails with the load error exactly
when the resolved target path does not exist, and otherwise performs
precisely load-metadata, then build-model, then load-weights. -/
theorem agent_load_spec (is_training : Bool) (name p : String)
    (path_exists : String → Bool) :
    (path_exists (if is_training then get_path_nn p (some name) else p) = false →
      agent_load is_training name (some p) path_exists
        = Except.error ("You asked to load a model at "
            ++ (if is_training then get_path_nn p (some name) else p)
            ++ " but there is nothing there.")) ∧
    (path_exists (if is_training then get_path_nn p (some name) else p) = true →
      agent_load is_training name (some p) path_exists
        = Except.ok [LoadStep.load_metadata, LoadStep.build_model,
            LoadStep.load_weights]) := by
  constructor <;> intro h <;> simp [agent_load, h]

/-- C7 witness: with a file system where only `"dir/model"` exists, loading
in training mode succeeds with the three-step trace, and loading a missing
path in evaluation mode raises the load error. -/
theorem agent_load_spec_witness :
    agent_load true "model" (some "dir") (fun s => s = "dir/model")
      = Except.ok [LoadStep.load_metadata, LoadStep.build_model,
          LoadStep.load_weights] ∧
    agent_load false "model" (some "absent") (fun s => s = "dir/model")
      = Except.error ("You asked to load a model at absent"
          ++ " but there is nothing there.") := by
  refine ⟨(agent_load_spec true "model" "dir" (fun s => s = "dir/model")).2
    (by simp [get_path_nn]), ?_⟩
  have h := (agent_load_spec false "model" "absent" (fun s => s = "dir/model")).1
    (by simp)
  simpa using h

/-- A JSON value, as produced by `get_metadata` and consumed by
`load_metadata` through the `metadata.json` round trip. -/
inductive JVal where
  | num : ℚ → JVal
  | str : String → JVal
  | arr : List JVal → JVal

/-- A JSON object, modelled as an insertion-ordered association list. -/
abbrev JDict : Type := List (String × JVal)

/-- Dictionary assignment `d[k] = v`: the later entry wins on lookup. -/
def jset (d : JDict) (k : String) (v : JVal) : JDict :=
  d ++ [(k, v)]

/-- Dictionary lookup `d[k]`, returning the value of the latest assignment
of key `k`, if any. -/
def jlookup : JDict → String → Option JVal
  | [], _ => none
  | kv :: rest, k =>
    match jlookup rest k with
    | some v => some v
    | none => if kv.1 = k then some kv.2 else none

/-- Looking a key up right after assigning it yields the assigned value. -/
theorem jlookup_jset_self (d : JDict) (k : String) (v : JVal) :
    jlookup (jset d k v) k = some v := by
  induction d with
  | nil => simp [jset, jlookup]
  | cons kv rest ih =>
      show jlookup (kv :: (rest ++ [(k, v)])) k = some v
      simp only [jlookup]
      rw [show jlookup (rest ++ [(k, v)]) k = some v from ih]

/-- Assigning a different key does not change a lookup. -/
theorem jlookup_jset_ne (d : JDict) (k k' : String) (v : JVal) (h : k ≠ k') :
    jlookup (jset d k' v) k = jlookup d k := by
  induction d with
  | nil =>
      show jlookup [(k', v)] k = none
      simp only [jlookup]
      rw [if_neg (fun hc => h hc.symm)]
  | cons kv rest ih =>
      show jlookup (kv :: (rest ++ [(k', v)])) k = jlookup (kv :: rest) k
      simp only [jlookup]
      rw [show jlookup (rest ++ [(k', v)]) k = jlookup rest k from ih]

/-- One per-attribute statistic (`_get_mean` / `_get_sd` result): the numpy
value is either a scalar or a vector. -/
inductive StatEntry where
  | scalar : ℚ → StatEntry
  | vec : List ℚ → StatEntry
  deriving Repr, DecidableEq

/-- `_save_dict(li, el)` (AgentWithProxy.py lines 295-299, matching the
base-proxy helper `get_metadata` relies on): an iterable is saved as a list
of JSON floats, a scalar as a single JSON float. -/
def save_stat_entry : StatEntry → JVal
  | StatEntry.scalar v => JVal.num v
  | StatEntry.vec l => JVal.arr (l.map JVal.num)

/-- Numeric content of a JSON value (`0` as a defensive default for the
shapes the save format never produces). -/
def as_rat : JVal → ℚ
  | JVal.num q => q
  | _ => 0

/-- Python `int(...)` on a JSON number: truncation toward zero. -/
def py_int (q : ℚ) : ℤ :=
  if 0 ≤ q then ⌊q⌋ else ⌈q⌉

/-- `int` of an integral JSON number is that integer back. -/
theorem py_int_intCast (n : ℤ) : py_int (n : ℚ) = n := by
  unfold py_int
  by_cases h : (0 : ℚ) ≤ (n : ℚ)
  · rw [if_pos h, Int.floor_intCast]
  · rw [if_neg h, Int.ceil_intCast]

/-- Modelled from the spec: `BaseNNProxy._add_attr` (its source is not part
of this snapshot) converts one JSON-loaded statistics entry back to the
proxy's working numeric type and appends it to the named list (§4.5:
numeric fields are coerced back on load). -/
def load_stat_entry : JVal → StatEntry
  | JVal.num q => StatEntry.scalar q
  | JVal.arr l => StatEntry.vec (l.map as_rat)
  | JVal.str _ => StatEntry.scalar 0

/-- Parsing `[int(el) for el in dict_[key]]`. -/
def parse_int_list : Option JVal → List ℤ
  | some (JVal.arr l) => l.map (fun x => py_int (as_rat x))
  | _ => []

/-- Parsing `[str(el) for el in dict_[key]]`. -/
def parse_str_list : Option JVal → List String
  | some (JVal.arr l) => l.map (fun x => match x with | JVal.str s => s | _ => "")
  | _ => []

/-- Parsing one saved statistics list back through `_add_attr`. -/
def parse_stats : Option JVal → List StatEntry
  | some (JVal.arr l) => l.map load_stat_entry
  | _ => []

/-- The instance state read by `get_metadata` and written by
`load_metadata`. -/
structure MetaState where
  attr_tau : List String
  _sz_tau : List ℤ
  _m_x : List StatEntry
  _m_y : List StatEntry
  _m_tau : List StatEntry
  _sd_x : List StatEntry
  _sd_y : List StatEntry
  _sd_tau : List StatEntry
  sizes_enc : List ℤ
  sizes_main : List ℤ
  sizes_out : List ℤ
  _scale_main_layer : Option ℤ
  _scale_input_dec_layer : Option ℤ
  _scale_input_enc_layer : Option ℤ
  _layer_act : Option String

/-- Embedding of `ProxyLeapNet.get_metadata` (lines 292-339): starting from
the base-class dictionary `base`, the tau attribute list and widths, the six
statistics lists, the three architecture size lists and — only when not
`None` — the three optional scaling-layer widths are stored, every numeric
field coerced to a JSON number. -/
def get_metadata (base : JDict) (st : MetaState) : JDict :=
  let res := jset base "attr_tau" (JVal.arr (st.attr_tau.map JVal.str))
  let res := jset res "_sz_tau" (JVal.arr (st._sz_tau.map (fun n : ℤ => JVal.num (n : ℚ))))
  let res := jset res "_m_x" (JVal.arr (st._m_x.map save_stat_entry))
  let res := jset res "_m_y" (JVal.arr (st._m_y.map save_stat_entry))
  let res := jset res "_m_tau" (JVal.arr (st._m_tau.map save_stat_entry))
  let res := jset res "_sd_x" (JVal.arr (st._sd_x.map save_stat_entry))
  let res := jset res "_sd_y" (JVal.arr (st._sd_y.map save_stat_entry))
  let res := jset res "_sd_tau" (JVal.arr (st._sd_tau.map save_stat_entry))
  let res := jset res "sizes_enc" (JVal.arr (st.sizes_enc.map (fun n : ℤ => JVal.num (n : ℚ))))
  let res := jset res "sizes_main" (JVal.arr (st.sizes_main.map (fun n : ℤ => JVal.num (n : ℚ))))
  let res := jset res "sizes_out" (JVal.arr (st.sizes_out.map (fun n : ℤ => JVal.num (n : ℚ))))
  let res := match st._scale_main_layer with
    | some v => jset res "_scale_main_layer" (JVal.num (v : ℚ))
    | none => res
  let res := match st._scale_input_dec_layer with
    | some v => jset res "_scale_input_dec_layer" (JVal.num (v : ℚ))
    | none => res
  let res := match st._scale_input_enc_layer with
    | some v => jset res "_scale_input_enc_layer" (JVal.num (v : ℚ))
    | none => res
  res

/-- Embedding of `ProxyLeapNet.load_metadata` (lines 351-382): the tau
attribute list and widths, the six statistics lists and the three size lists
are read back (numeric fields coerced through `int`/`_add_attr`), and each
optional field is restored exactly when its key is present, `None`
otherwise. -/
def load_metadata (d : JDict) (st : MetaState) : MetaState :=
  { st with
    attr_tau := parse_str_list (jlookup d "attr_tau"),
    _sz_tau := parse_int_list (jlookup d "_sz_tau"),
    _m_x := parse_stats (jlookup d "_m_x"),
    _m_y := parse_stats (jlookup d "_m_y"),
    _m_tau := parse_stats (jlookup d "_m_tau"),
    _sd_x := parse_stats (jlookup d "_sd_x"),
    _sd_y := parse_stats (jlookup d "_sd_y"),
    _sd_tau := parse_stats (jlookup d "_sd_tau"),
    sizes_enc := parse_int_list (jlookup d "sizes_enc"),
    sizes_main := parse_int_list (jlookup d "sizes_main"),
    sizes_out := parse_int_list (jlookup d "sizes_out"),
    _scale_main_layer := (jlookup d "_scale_main_layer").map (fun j => py_int (as_rat j)),
    _scale_input_dec_layer :=
      (jlookup d "_scale_input_dec_layer").map (fun j => py_int (as_rat j)),
    _scale_input_enc_layer :=
      (jlookup d "_scale_input_enc_layer").map (fun j => py_int (as_rat j)),
    _layer_act := (jlookup d "_layer_act").map
      (fun j => match j with | JVal.str s => s | _ => "") }

/-- The keys `ProxyLeapNet.get_metadata` may add to the base dictionary. -/
def proxy_metadata_keys : List String :=
  ["attr_tau", "_sz_tau", "_m_x", "_m_y", "_m_tau", "_sd_x", "_sd_y", "_sd_tau",
   "sizes_enc", "sizes_main", "sizes_out",
   "_scale_main_layer", "_scale_input_dec_layer", "_scale_input_enc_layer"]

/-- Saving one statistics entry and loading it back is the identity. -/
theorem load_save_stat_entry (e : StatEntry) :
    load_stat_entry (save_stat_entry e) = e := by
  cases e with
  | scalar v => rfl
  | vec l =>
      show StatEntry.vec ((l.map JVal.num).map as_rat) = StatEntry.vec l
      rw [List.map_map, show as_rat ∘ JVal.num = id from rfl, List.map_id]

/-- A saved statistics list parses back to itself. -/
theorem parse_stats_round (l : List StatEntry) :
    parse_stats (some (JVal.arr (l.map save_stat_entry))) = l := by
  show (l.map save_stat_entry).map load_stat_entry = l
  rw [List.map_map, show load_stat_entry ∘ save_stat_entry = id from
    funext load_save_stat_entry, List.map_id]

/-- A saved integer list parses back to itself. -/
theorem parse_int_round (l : List ℤ) :
    parse_int_list (some (JVal.arr (l.map (fun n : ℤ => JVal.num (n : ℚ))))) = l := by
  show (l.map (fun n : ℤ => JVal.num (n : ℚ))).map (fun x => py_int (as_rat x)) = l
  rw [List.map_map]
  have h : ((fun x => py_int (as_rat x)) ∘ fun n : ℤ => JVal.num (n : ℚ)) = id := by
    funext n
    exact py_int_intCast n
  rw [h, List.map_id]

/-- A saved string list parses back to itself. -/
theorem parse_str_round (l : List String) :
    parse_str_list (some (JVal.arr (l.map JVal.str))) = l := by
  show (l.map JVal.str).map (fun x => match x with | JVal.str s => s | _ => "") = l
  rw [List.map_map,
    show ((fun x => match x with | JVal.str s => s | _ => "") ∘ JVal.str) = id from rfl,
    List.map_id]

/-- Looking up in a concatenated dictionary: the right part wins. -/
theorem jlookup_append (d1 d2 : JDict) (k : String) :
    jlookup (d1 ++ d2) k = (jlookup d2 k).or (jlookup d1 k) := by
  induction d1 with
  | nil =>
      show jlookup d2 k = (jlookup d2 k).or (jlookup [] k)
      cases jlookup d2 k <;> rfl
  | cons kv rest ih =>
      show (match jlookup (rest ++ d2) k with
        | some v => some v
        | none => if kv.1 = k then some kv.2 else none)
        = (jlookup d2 k).or (match jlookup rest k with
            | some v => some v
            | none => if kv.1 = k then some kv.2 else none)
      rw [ih]
      cases jlookup d2 k with
      | some v => rfl
      | none => cases jlookup rest k <;> rfl

/-- Looking up in a one-entry dictionary. -/
theorem jlookup_singleton (k' k : String) (v : JVal) :
    jlookup [(k', v)] k = if k' = k then some v else none := rfl

set_option maxHeartbeats 2000000 in
/-- C8: feeding the dictionary produced by `get_metadata` into
`load_metadata` on a fresh instance restores the tau attribute list, the tau
widths, the six mean/std statistics lists, the three architecture size lists,
and the three optional scaling-layer widths — each restored to `None`
exactly when its key was omitted on save — provided the base-class
dictionary does not use the proxy-level keys. -/
theorem metadata_round_trip (base : JDict) (st fresh : MetaState)
    (hbase : ∀ k, k ∈ proxy_metadata_keys → jlookup base k = none) :
    (load_metadata (get_metadata base st) fresh).attr_tau = st.attr_tau ∧
    (load_metadata (get_metadata base st) fresh)._sz_tau = st._sz_tau ∧
    (load_metadata (get_metadata base st) fresh)._m_x = st._m_x ∧
    (load_metadata (get_metadata base st) fresh)._m_y = st._m_y ∧
    (load_metadata (get_metadata base st) fresh)._m_tau = st._m_tau ∧
    (load_metadata (get_metadata base st) fresh)._sd_x = st._sd_x ∧
    (load_metadata (get_metadata base st) fresh)._sd_y = st._sd_y ∧
    (load_metadata (get_metadata base st) fresh)._sd_tau = st._sd_tau ∧
    (load_metadata (get_metadata base st) fresh).sizes_enc = st.sizes_enc ∧
    (load_metadata (get_metadata base st) fresh).sizes_main = st.sizes_main ∧
    (load_metadata (get_metadata base st) fresh).sizes_out = st.sizes_out ∧
    (load_metadata (get_metadata base st) fresh)._scale_main_layer
      = st._scale_main_layer ∧
    (load_metadata (get_metadata base st) fresh)._scale_input_dec_layer
      = st._scale_input_dec_layer ∧
    (load_metadata (get_metadata base st) fresh)._scale_input_enc_layer
      = st._scale_input_enc_layer := by
  rcases hsm : st._scale_main_layer with _ | vm <;>
    rcases hsd : st._scale_input_dec_layer with _ | vd <;>
      rcases hse : st._scale_input_enc_layer with _ | ve <;>
        refine ⟨?_, ?_, ?_, ?_, ?_, ?_, ?_, ?_, ?_, ?_, ?_, ?_, ?_, ?_⟩ <;>
        · simp only [load_metadata, get_metadata, jset, hsm, hsd, hse]
          simp [jlookup_append, jlookup_singleton, jlookup, hbase, proxy_metadata_keys,
            parse_stats_round, parse_int_round, parse_str_round, py_int_intCast,
            as_rat]

/-- A concrete initialized metadata state for the C8 witness: the
decoder-input scaling key is omitted on save, the main-layer one is not. -/
def example_meta_state : MetaState :=
  { attr_tau := ["line_status"], _sz_tau := [8],
    _m_x := [StatEntry.vec [1, 2]], _m_y := [StatEntry.scalar 3],
    _m_tau := [StatEntry.scalar 0], _sd_x := [StatEntry.vec [4, 5]],
    _sd_y := [StatEntry.scalar 1], _sd_tau := [StatEntry.scalar 1],
    sizes_enc := [20, 20, 20], sizes_main := [150], sizes_out := [100, 40],
    _scale_main_layer := some 200, _scale_input_dec_layer := none,
    _scale_input_enc_layer := none, _layer_act := none }

/-- A concrete fresh instance for the C8 witness. -/
def example_fresh_meta : MetaState :=
  { attr_tau := [], _sz_tau := [],
    _m_x := [], _m_y := [], _m_tau := [], _sd_x := [], _sd_y := [], _sd_tau := [],
    sizes_enc := [], sizes_main := [], sizes_out := [],
    _scale_main_layer := none, _scale_input_dec_layer := none,
    _scale_input_enc_layer := none, _layer_act := none }

/-- C8 witness: the round trip through an empty base dictionary restores
every field of `example_meta_state` on `example_fresh_meta`, with the
omitted scaling keys coming back as `None`. -/
theorem metadata_round_trip_witness :
    (load_metadata (get_metadata [] example_meta_state) example_fresh_meta).attr_tau
      = example_meta_state.attr_tau ∧
    (load_metadata (get_metadata [] example_meta_state) example_fresh_meta)._sz_tau
      = example_meta_state._sz_tau ∧
    (load_metadata (get_metadata [] example_meta_state) example_fresh_meta)._m_x
      = example_meta_state._m_x ∧
    (load_metadata (get_metadata [] example_meta_state) example_fresh_meta)._m_y
      = example_meta_state._m_y ∧
    (load_metadata (get_metadata [] example_meta_state) example_fresh_meta)._m_tau
      = example_meta_state._m_tau ∧
    (load_metadata (get_metadata [] example_meta_state) example_fresh_meta)._sd_x
      = example_meta_state._sd_x ∧
    (load_metadata (get_metadata [] example_meta_state) example_fresh_meta)._sd_y
      = example_meta_state._sd_y ∧
    (load_metadata (get_metadata [] example_meta_state) example_fresh_meta)._sd_tau
      = example_meta_state._sd_tau ∧
    (load_metadata (get_metadata [] example_meta_state) example_fresh_meta).sizes_enc
      = example_meta_state.sizes_enc ∧
    (load_metadata (get_metadata [] example_meta_state) example_fresh_meta).sizes_main
      = example_meta_state.sizes_main ∧
    (load_metadata (get_metadata [] example_meta_state) example_fresh_meta).sizes_out
      = example_meta_state.sizes_out ∧
    (load_metadata (get_metadata [] example_meta_state)
        example_fresh_meta)._scale_main_layer
      = example_meta_state._scale_main_layer ∧
    (load_metadata (get_metadata [] example_meta_state)
        example_fresh_meta)._scale_input_dec_layer
      = example_meta_state._scale_input_dec_layer ∧
    (load_metadata (get_metadata [] example_meta_state)
        example_fresh_meta)._scale_input_enc_layer
      = example_meta_state._scale_input_enc_layer :=
  metadata_round_trip [] example_meta_state example_fresh_meta (fun _ _ => rfl)

/-- An external gym-style environment, as `_reboot` drives it: `reset`
yields an observation and a new internal state; `step` consumes an action
and yields the observation, the reward, the `done` flag and the new internal
state; `reward_range0` is `env.reward_range[0]`. -/
structure Env (S O A : Type) where
  reset : S → O × S
  step : S → A → O × ℚ × Bool × S
  reward_range0 : ℚ

/-- One reset-then-step pair of `_reboot` (AgentWithProxy.py lines 370-371
and 374-375): the environment is reset and one action of the wrapped
external policy is issued immediately, the policy seeing the freshly reset
observation together with the previous reward and done flag. -/
def reboot_pair {S O A : Type} (env : Env S O A) (act : O → ℚ → Bool → A)
    (s : S) (reward : ℚ) (done : Bool) : O × ℚ × Bool × S :=
  let rs := env.reset s
  env.step rs.2 (act rs.1 reward done)

/-- The `while done:` loop of `_reboot` (lines 372-375), with explicit fuel
standing for the unbounded iteration: while the last pair reported
termination, another reset-and-step pair is performed; the first
non-terminal observation is returned. -/
def reboot_go {S O A : Type} (env : Env S O A) (act : O → ℚ → Bool → A) :
    Nat → O × ℚ × Bool × S → Option O
  | fuel, t =>
    if t.2.2.1 = true then
      match fuel with
      | 0 => none
      | fuel + 1 => reboot_go env act fuel (reboot_pair env act t.2.2.2 t.2.1 t.2.2.1)
    else some t.1

/-- Embedding of `AgentWithProxy._reboot` (lines 365-376): reset and act
once with `done = False` and `reward = env.reward_range[0]`, then repeat
while the environment keeps reporting termination. -/
def agent_reboot {S O A : Type} (env : Env S O A) (act : O → ℚ → Bool → A)
    (fuel : Nat) (s : S) : Option O :=
  reboot_go env act fuel (reboot_pair env act s env.reward_range0 false)

/-- The sequence of reset-and-step pairs `_reboot` generates from a first
pair `t`: element `0` is `t` itself, and element `k+1` of `t` is element
`k` of the pair following `t`. -/
def reboot_seq {S O A : Type} (env : Env S O A) (act : O → ℚ → Bool → A) :
    (O × ℚ × Bool × S) → Nat → O × ℚ × Bool × S
  | t, 0 => t
  | t, k + 1 => reboot_seq env act (reboot_pair env act t.2.2.2 t.2.1 t.2.2.1) k

/-- Helper for C9: whatever observation the while loop returns is the one of
the first non-terminal reset-and-step pair, every earlier pair having
reported termination. -/
theorem reboot_go_spec {S O A : Type} (env : Env S O A) (act : O → ℚ → Bool → A) :
    ∀ (fuel : Nat) (t : O × ℚ × Bool × S) (obs : O),
      reboot_go env act fuel t = some obs →
      ∃ k, k ≤ fuel ∧ (reboot_seq env act t k).2.2.1 = false ∧
        obs = (reboot_seq env act t k).1 ∧
        ∀ j, j < k → (reboot_seq env act t j).2.2.1 = true := by
  intro fuel
  induction fuel with
  | zero =>
      intro t obs h
      by_cases hd : t.2.2.1 = true
      · simp [reboot_go, hd] at h
      · simp [reboot_go, hd] at h
        refine ⟨0, Nat.le_refl 0, by simpa using hd, ?_,
          fun j hj => absurd hj (Nat.not_lt_zero j)⟩
        exact h.symm
  | succ fuel ih =>
      intro t obs h
      by_cases hd : t.2.2.1 = true
      · have h' : reboot_go env act fuel
            (reboot_pair env act t.2.2.2 t.2.1 t.2.2.1) = some obs := by
          simpa [reboot_go, hd] using h
        obtain ⟨k, hk, hdone, hobs, hprev⟩ := ih _ obs h'
        refine ⟨k + 1, Nat.succ_le_succ hk, ?_, ?_, ?_⟩
        · simpa [reboot_seq] using hdone
        · simpa [reboot_seq] using hobs
        · intro j hj
          cases j with
          | zero => exact hd
          | succ j' =>
              have hj' := hprev j' (Nat.lt_of_succ_lt_succ hj)
              simpa [reboot_seq] using hj'
      · simp [reboot_go, hd] at h
        exact ⟨0, Nat.zero_le _, by simpa using hd, h.symm,
          fun j hj => absurd hj (Nat.not_lt_zero j)⟩

/-- C9: whenever `_reboot` returns an observation, that observation comes
from the first reset-and-step pair whose resulting state is non-terminal:
every earlier pair reset the environment, immediately issued one action of
the wrapped policy, and ended terminated again; only the non-terminal
observation is handed back to the training loop. -/
theorem reboot_first_nonterminal {S O A : Type} (env : Env S O A)
    (act : O → ℚ → Bool → A) (fuel : Nat) (s : S) (obs : O)
    (h : agent_reboot env act fuel s = some obs) :
    ∃ k, k ≤ fuel ∧
      (reboot_seq env act (reboot_pair env act s env.reward_range0 false) k).2.2.1
        = false ∧
      obs = (reboot_seq env act (reboot_pair env act s env.reward_range0 false) k).1 ∧
      ∀ j, j < k →
        (reboot_seq env act (reboot_pair env act s env.reward_range0 false) j).2.2.1
          = true :=
  reboot_go_spec env act fuel _ obs h

/-- A concrete environment for the C9 witness: state counts resets; the
first episode starts already terminated, the second does not. -/
def example_env : Env Nat Nat Nat :=
  { reset := fun s => (s, s + 1),
    step := fun s _ => (100 + s, 0, decide (s < 2), s),
    reward_range0 := 0 }

/-- A concrete wrapped policy for the C9 witness. -/
def example_act : Nat → ℚ → Bool → Nat := fun _ _ _ => 0

/-- C9 witness: on `example_env` the reboot retries once and returns the
observation of the second, non-terminal, reset-and-step pair. -/
theorem reboot_first_nonterminal_witness :
    ∃ k, k ≤ 1 ∧
      (reboot_seq example_env example_act
        (reboot_pair example_env example_act 0 example_env.reward_range0 false)
        k).2.2.1 = false ∧
      (102 : Nat) = (reboot_seq example_env example_act
        (reboot_pair example_env example_act 0 example_env.reward_range0 false) k).1 ∧
      ∀ j, j < k →
        (reboot_seq example_env example_act
          (reboot_pair example_env example_act 0 example_env.reward_range0 false)
          j).2.2.1 = true :=
  reboot_first_nonterminal example_env example_act 1 0 102 (by rfl)

end LeapNet
